import Mathlib

/-!
# Shallow embedding of the crypto-monitor web dashboard scripts

This file embeds, in Lean, the pure data-transformation core of the
dashboard's JavaScript sources (the task-management module and the
dashboard application script) and proves properties of it:

* number/string formatting helpers (`utils.formatNumber`-family,
  `utils.formatPercentage`);
* the task-creation form's wire payload (`TaskManager.createTask`);
* the task card's rule-detail rendering (`TaskManager.createTaskCard`);
* the alert-table rendering pipeline (`loadAlerts`, `parseAlertMessage`,
  `createAlertRow`);
* HTML escaping (`DOMUtils.escapeHtml`);
* the bounded in-memory alert list (`addNewAlert`);
* the API wrappers' error handling (`api.get` / `api.post` / `api.delete`).

JavaScript numbers are modelled as rationals (`ℚ`); the code under study
only constructs, compares and prints them, so no binary floating-point
behaviour is load-bearing.  Strings are Lean `String`s, manipulated
through their underlying character lists.
-/

/-- Decimal digit character for a value `d < 10` (`'0'` … `'9'`). -/
def digitChar (d : ℕ) : Char := Char.ofNat (48 + d)

/-- Fuel-driven rendering of a natural number's decimal digits,
most-significant first.  `fuel` only has to exceed the number of digits;
callers pass `n + 1`. -/
def natToCharsAux : ℕ → ℕ → List Char
  | 0, _ => []
  | fuel + 1, n =>
    if n < 10 then [digitChar n]
    else natToCharsAux fuel (n / 10) ++ [digitChar (n % 10)]

/-- Decimal string of a natural number (the JavaScript `String(n)` for a
nonnegative integer). -/
def natToString (n : ℕ) : String := String.mk (natToCharsAux (n + 1) n)

/-- Fuel-bounded decimal expansion of a fraction `0 ≤ x < 1`; stops at the
first exact point or after `fuel` digits. -/
def fracChars : ℕ → ℚ → List Char
  | 0, _ => []
  | fuel + 1, x =>
    if x = 0 then []
    else
      let y := x * 10
      digitChar (⌊y⌋).toNat :: fracChars fuel (y - ⌊y⌋)

/-- JavaScript default number-to-string conversion, modelled for the
decimal values the dashboard handles: sign, integer part, and (when the
value is not an integer) a fractional expansion. -/
def jsNumToString (q : ℚ) : String :=
  (if q < 0 then "-" else "") ++ natToString (⌊|q|⌋).toNat ++
    (if |q| - ⌊|q|⌋ = 0 then "" else "." ++ String.mk (fracChars 20 (|q| - ⌊|q|⌋)))

/-- The integer `n` chosen by `Number.prototype.toFixed(d)` for a
nonnegative value `x`: the integer with `n / 10^d` closest to `x`, ties
to the larger `n` (round half up on the magnitude). -/
def toFixedNat (d : ℕ) (x : ℚ) : ℕ := (⌊x * (10 ^ d : ℚ) + 1 / 2⌋).toNat

/-- Left-pad a digit string with zeros to length `d`. -/
def padLeftZeros (d : ℕ) (s : String) : String :=
  String.mk (List.replicate (d - s.length) '0') ++ s

/-- `ToString` of a nonnegative integer of 22 or more digits, as
`toFixed`'s large-magnitude fallback produces it (ECMA-262
`Number::toString`): exponential notation `d[.ddd]e+<digits-1>`, the
significand being the digits with trailing zeros stripped.  (At these
magnitudes every JavaScript number is an integer.) -/
def expNotationNat (m : ℕ) : String :=
  let ds := natToCharsAux (m + 1) m
  let sig := (ds.reverse.dropWhile (fun c => c = '0')).reverse
  match sig with
  | [] => "0"
  | [d] => String.mk [d] ++ "e+" ++ natToString (ds.length - 1)
  | d :: rest => String.mk [d] ++ "." ++ String.mk rest ++ "e+" ++ natToString (ds.length - 1)

/-- `Number.prototype.toFixed(d)`: sign of the value first; then, per
ECMA-262, a magnitude of `10^21` or more falls back to plain `ToString`
(exponential notation), and below that the rounded magnitude is printed
with exactly `d` digits after the decimal point. -/
def jsToFixed (d : ℕ) (x : ℚ) : String :=
  let s : String := if x < 0 then "-" else ""
  if 10 ^ 21 ≤ |x| then s ++ expNotationNat (⌊|x|⌋).toNat
  else
    let n : ℕ := toFixedNat d |x|
    if d = 0 then s ++ natToString n
    else s ++ natToString (n / 10 ^ d) ++ "." ++ padLeftZeros d (natToString (n % 10 ^ d))

/-- `utils.formatPercentage(value)`: a `'+'` prefix for `value >= 0`
(otherwise the empty prefix, the minus sign coming from `toFixed`),
then `value.toFixed(2)` and a `'%'` suffix.  Identical in both copies of
the dashboard script. -/
def formatPercentage (value : ℚ) : String :=
  (if 0 ≤ value then "+" else "") ++ jsToFixed 2 value ++ "%"

theorem natToCharsAux_ne_nil (fuel n : ℕ) : natToCharsAux (fuel + 1) n ≠ [] := by
  simp only [natToCharsAux]
  by_cases h : n < 10 <;> simp [h]

theorem natToString_length_pos (n : ℕ) : 0 < (natToString n).length := by
  rw [natToString]
  exact List.length_pos.mpr (natToCharsAux_ne_nil n n)

theorem padLeftZeros_length (d : ℕ) (s : String) (h : s.length ≤ d) :
    (padLeftZeros d s).length = d := by
  have hl : (padLeftZeros d s).length = (d - s.length) + s.length := by
    simp only [padLeftZeros, String.length_append, String.length_mk, List.length_replicate]
  omega

theorem natToString_length_le_two : ∀ k < 100, (natToString k).length ≤ 2 := by decide

/-- C4 counterexample.  At `v = 10^21`, `toFixed` takes its ECMA-262
large-magnitude fallback and `formatPercentage` returns `"+1e+21%"` —
exponential notation with no decimal point at all — refuting "every
finite number is rendered to exactly two decimal places". -/
theorem formatPercentage_large_exponential :
    formatPercentage (10 ^ 21 : ℚ) = "+1e+21%" ∧
    (formatPercentage (10 ^ 21 : ℚ)).data.contains '.' = false := by
  have habs : |(10 ^ 21 : ℚ)| = 10 ^ 21 := abs_of_nonneg (by positivity)
  have hfl : (⌊(10 ^ 21 : ℚ)⌋).toNat = 10 ^ 21 := by
    rw [(by push_cast; ring : ((10 : ℚ) ^ 21) = ((10 ^ 21 : ℤ) : ℚ)), Int.floor_intCast]
    exact_mod_cast Int.toNat_of_nonneg (show (0 : ℤ) ≤ 10 ^ 21 by positivity)
  have h : formatPercentage (10 ^ 21 : ℚ) = "+1e+21%" := by
    rw [formatPercentage, jsToFixed]
    simp only [if_pos (show (0 : ℚ) ≤ 10 ^ 21 by positivity),
      if_neg (not_lt.mpr (show (0 : ℚ) ≤ 10 ^ 21 by positivity)), if_pos habs.ge, habs, hfl]
    decide
  exact ⟨h, by rw [h]; decide⟩

/-- C4 (amended).  For every finite `v` of magnitude below `10^21`,
`utils.formatPercentage(v)` renders `v` to exactly two decimal places
followed by `'%'`, prefixed with `'+'` when `v ≥ 0` and `'-'` when
`v < 0`: the printed digits are `toFixedNat 2 |v|` — the hundredths
rounding of `|v|`, within `1/2` of `100·|v|` — split into an integer
part and a two-digit fraction.  (At magnitudes `≥ 10^21`, `toFixed`
falls back to exponential `ToString` notation.) -/
theorem formatPercentage_sign_two_decimals (v : ℚ) (hv : |v| < 10 ^ 21) :
    formatPercentage v =
      (if 0 ≤ v then "+" else "-") ++
        (natToString (toFixedNat 2 |v| / 10 ^ 2) ++ "." ++
          padLeftZeros 2 (natToString (toFixedNat 2 |v| % 10 ^ 2)) ++ "%") ∧
    toFixedNat 2 |v| % 10 ^ 2 < 100 ∧
    (padLeftZeros 2 (natToString (toFixedNat 2 |v| % 10 ^ 2))).length = 2 ∧
    |((toFixedNat 2 |v| : ℕ) : ℚ) - |v| * 10 ^ 2| ≤ 1 / 2 := by
  have hmod : toFixedNat 2 |v| % 10 ^ 2 < 100 := by
    have := Nat.mod_lt (toFixedNat 2 |v|) (show 0 < 10 ^ 2 by norm_num)
    omega
  have hnotbig : ¬ (10 ^ 21 : ℚ) ≤ |v| := not_le.mpr hv
  refine ⟨?_, hmod, padLeftZeros_length 2 _ (natToString_length_le_two _ hmod), ?_⟩
  · by_cases hv0 : 0 ≤ v
    · have hneg : ¬ v < 0 := not_lt.mpr hv0
      rw [formatPercentage, jsToFixed]
      simp only [if_pos hv0, if_neg hneg, if_neg hnotbig, if_neg (by norm_num : ¬ (2 : ℕ) = 0)]
      apply String.ext
      simp [String.data_append, List.append_assoc]
    · have hlt : v < 0 := not_le.mp hv0
      rw [formatPercentage, jsToFixed]
      simp only [if_neg hv0, if_pos hlt, if_neg hnotbig, if_neg (by norm_num : ¬ (2 : ℕ) = 0)]
      apply String.ext
      simp [String.data_append, List.append_assoc]
  · have hy : (0 : ℚ) ≤ |v| * (10 ^ 2 : ℚ) + 1 / 2 := by positivity
    have hn0 : 0 ≤ ⌊|v| * (10 ^ 2 : ℚ) + 1 / 2⌋ := Int.floor_nonneg.mpr hy
    have hcast : ((toFixedNat 2 |v| : ℕ) : ℚ) = ((⌊|v| * (10 ^ 2 : ℚ) + 1 / 2⌋ : ℤ) : ℚ) := by
      rw [toFixedNat]
      exact_mod_cast congrArg (fun z : ℤ => (z : ℚ)) (Int.toNat_of_nonneg hn0)
    have h1 : ((⌊|v| * (10 ^ 2 : ℚ) + 1 / 2⌋ : ℤ) : ℚ) ≤ |v| * (10 ^ 2 : ℚ) + 1 / 2 :=
      Int.floor_le _
    have h2 : |v| * (10 ^ 2 : ℚ) + 1 / 2 < ((⌊|v| * (10 ^ 2 : ℚ) + 1 / 2⌋ : ℤ) : ℚ) + 1 :=
      Int.lt_floor_add_one _
    rw [abs_le, hcast]
    constructor <;> linarith

theorem formatPercentage_sign_two_decimals_witness :
    |(5 : ℚ)| < 10 ^ 21 ∧
      (formatPercentage 5 =
        (if 0 ≤ (5 : ℚ) then "+" else "-") ++
          (natToString (toFixedNat 2 |(5 : ℚ)| / 10 ^ 2) ++ "." ++
            padLeftZeros 2 (natToString (toFixedNat 2 |(5 : ℚ)| % 10 ^ 2)) ++ "%") ∧
      toFixedNat 2 |(5 : ℚ)| % 10 ^ 2 < 100 ∧
      (padLeftZeros 2 (natToString (toFixedNat 2 |(5 : ℚ)| % 10 ^ 2))).length = 2 ∧
      |((toFixedNat 2 |(5 : ℚ)| : ℕ) : ℚ) - |(5 : ℚ)| * 10 ^ 2| ≤ 1 / 2) :=
  ⟨by norm_num, formatPercentage_sign_two_decimals 5 (by norm_num)⟩

/-! ## Task creation (`TaskManager.createTask`) -/

/-- The parsed JSON `rule_config` object: the fields that the two
recognized rule shapes may carry, each possibly absent. -/
structure RuleConfig where
  threshold_high : Option ℚ := none
  threshold_low : Option ℚ := none
  percentage_threshold : Option ℚ := none
  reference_price : Option ℚ := none
deriving DecidableEq, Repr

/-- JavaScript truthiness of a possibly-absent numeric field: `undefined`
and `0` are falsy, every other number is truthy. -/
def truthyNum : Option ℚ → Bool
  | none => false
  | some q => q != 0

/-- `String.prototype.toUpperCase()` on the characters of a string. -/
def jsToUpperCase (s : String) : String := String.mk (s.data.map Char.toUpper)

/-- The rule-config object built by `TaskManager.createTask` from the
form fields: for `PRICE_THRESHOLD`, the one bound selected by the
`price_condition` field (`'above'` → `threshold_high`, anything else →
`threshold_low`); for `PERCENTAGE`, both percentage fields; otherwise
the empty object. -/
def createTaskRuleConfig (ruleType condition : String) (price pct ref : ℚ) : RuleConfig :=
  if ruleType = "PRICE_THRESHOLD" then
    if condition = "above" then { threshold_high := some price }
    else { threshold_low := some price }
  else if ruleType = "PERCENTAGE" then
    { percentage_threshold := some pct, reference_price := some ref }
  else {}

/-- The task payload POSTed to `/tasks`. -/
structure TaskData where
  user_id : Int
  symbol : String
  rule_type : String
  rule_config : RuleConfig
deriving DecidableEq, Repr

/-- `TaskManager.createTask`: the `taskData` object POSTed to the server,
built from the parsed form fields (`user_id'`, the raw `symbol` text, the
selected rule type and condition, and the parsed numeric inputs). -/
def createTask (userId : Int) (symbolInput ruleType condition : String)
    (price pct ref : ℚ) : TaskData :=
  { user_id := userId
    symbol := jsToUpperCase symbolInput
    rule_type := ruleType
    rule_config := createTaskRuleConfig ruleType condition price pct ref }

/-- C1 counterexample.  Neither branch of the form's `price_condition`
produces a config with both bounds: the `'above'` branch leaves
`threshold_low` unset and the `'below'` branch leaves `threshold_high`
unset, so no form input yields a band config with both bounds. -/
theorem createTask_no_band_config :
    ((createTask 1 "btc" "PRICE_THRESHOLD" "above" 50000 0 0).rule_config.threshold_high.isSome &&
      (createTask 1 "btc" "PRICE_THRESHOLD" "above" 50000 0 0).rule_config.threshold_low.isSome) = false ∧
    ((createTask 1 "btc" "PRICE_THRESHOLD" "below" 40000 0 0).rule_config.threshold_high.isSome &&
      (createTask 1 "btc" "PRICE_THRESHOLD" "below" 40000 0 0).rule_config.threshold_low.isSome) = false := by
  constructor <;> rfl

/-- C1 (amended).  Every `PRICE_THRESHOLD` config built by the
task-creation form carries exactly one bound — `threshold_high` when the
condition is `'above'`, `threshold_low` otherwise — never both. -/
theorem createTask_threshold_one_bound (uid : Int) (sym cond : String) (price pct ref : ℚ) :
    ((createTask uid sym "PRICE_THRESHOLD" cond price pct ref).rule_config.threshold_high ≠ none ∨
      (createTask uid sym "PRICE_THRESHOLD" cond price pct ref).rule_config.threshold_low ≠ none) ∧
    ¬((createTask uid sym "PRICE_THRESHOLD" cond price pct ref).rule_config.threshold_high ≠ none ∧
      (createTask uid sym "PRICE_THRESHOLD" cond price pct ref).rule_config.threshold_low ≠ none) ∧
    (cond = "above" →
      (createTask uid sym "PRICE_THRESHOLD" cond price pct ref).rule_config =
        { threshold_high := some price }) ∧
    (cond ≠ "above" →
      (createTask uid sym "PRICE_THRESHOLD" cond price pct ref).rule_config =
        { threshold_low := some price }) := by
  simp only [createTask, createTaskRuleConfig, if_pos rfl]
  by_cases hc : cond = "above" <;> simp [hc]

theorem createTask_threshold_one_bound_witness :
    ("above" : String) = "above" ∧
      (createTask 7 "btc" "PRICE_THRESHOLD" "above" 50000 0 0).rule_config =
        { threshold_high := some 50000 } :=
  ⟨rfl, (createTask_threshold_one_bound 7 "btc" "above" 50000 0 0).2.2.1 rfl⟩

/-- C7.  The `symbol` POSTed by the task-creation form is exactly the
user's input uppercased character-by-character, for every rule type and
condition. -/
theorem createTask_symbol_uppercase (uid : Int) (sym ruleType cond : String)
    (price pct ref : ℚ) :
    (createTask uid sym ruleType cond price pct ref).symbol = jsToUpperCase sym ∧
    (jsToUpperCase sym).data = sym.data.map Char.toUpper :=
  ⟨rfl, rfl⟩

/-! ## Task card rendering (`TaskManager.createTaskCard`) -/

/-- The `rule_config` value as the card sees it: either it parses (it was
an object already, or a string `JSON.parse` accepted) or parsing threw. -/
inductive RawRuleConfig where
  | parsed (config : RuleConfig)
  | malformed
deriving DecidableEq, Repr

/-- Interpolation of a possibly-absent numeric field into a template
string (`undefined` prints as such). -/
def jsOptNumToString : Option ℚ → String
  | none => "undefined"
  | some q => jsNumToString q

/-- The `ruleDetail` text computed by `TaskManager.createTaskCard`: the
parse failure is caught and marked `'配置错误'`; a parsed
`PRICE_THRESHOLD` config shows `≥` for a truthy `threshold_high`, else
`≤` for a truthy `threshold_low`, else leaves the detail as the initial
empty string; `PERCENTAGE` shows the percentage field. -/
def createTaskCardRuleDetail (ruleType : String) (rc : RawRuleConfig) : String :=
  match rc with
  | .malformed => "配置错误"
  | .parsed config =>
    if ruleType = "PRICE_THRESHOLD" then
      if truthyNum config.threshold_high then
        "目标价格: ≥ $" ++ jsNumToString (config.threshold_high.getD 0)
      else if truthyNum config.threshold_low then
        "目标价格: ≤ $" ++ jsNumToString (config.threshold_low.getD 0)
      else ""
    else if ruleType = "PERCENTAGE" then
      "涨跌幅: " ++ jsOptNumToString config.percentage_threshold ++ "%"
    else ""

/-- C2 counterexample.  A `PRICE_THRESHOLD` config that parses to `{}`
(no bounds) leaves the card's rule detail as the empty string — it is
not marked `'配置错误'`, while an unparsable config is. -/
theorem createTaskCard_empty_config_blank :
    createTaskCardRuleDetail "PRICE_THRESHOLD" (.parsed {}) = "" ∧
    createTaskCardRuleDetail "PRICE_THRESHOLD" (.parsed {}) ≠ "配置错误" ∧
    createTaskCardRuleDetail "PRICE_THRESHOLD" .malformed = "配置错误" :=
  ⟨rfl, by decide, rfl⟩

/-- C2 (amended).  A parsed `PRICE_THRESHOLD` config with no truthy
bound renders a blank rule detail (a silent no-op in the card), and only
a `rule_config` that fails to parse is marked `'配置错误'`. -/
theorem createTaskCard_no_bounds_blank (c : RuleConfig)
    (h1 : truthyNum c.threshold_high = false) (h2 : truthyNum c.threshold_low = false) :
    createTaskCardRuleDetail "PRICE_THRESHOLD" (.parsed c) = "" ∧
    createTaskCardRuleDetail "PRICE_THRESHOLD" .malformed = "配置错误" := by
  exact ⟨by simp [createTaskCardRuleDetail, h1, h2], rfl⟩

theorem createTaskCard_no_bounds_blank_witness :
    truthyNum (RuleConfig.threshold_high {}) = false ∧
    truthyNum (RuleConfig.threshold_low {}) = false ∧
    (createTaskCardRuleDetail "PRICE_THRESHOLD" (.parsed {}) = "" ∧
      createTaskCardRuleDetail "PRICE_THRESHOLD" .malformed = "配置错误") :=
  ⟨rfl, rfl, createTaskCard_no_bounds_blank {} rfl rfl⟩

/-! ## Alert-message parsing (`parseAlertMessage`) -/

/-- `String.prototype.includes` on character lists. -/
def listContainsSub (needle : List Char) : List Char → Bool
  | [] => needle.isEmpty
  | c :: t => needle.isPrefixOf (c :: t) || listContainsSub needle t

/-- `hay.includes(needle)`. -/
def jsIncludes (hay needle : String) : Bool := listContainsSub needle.data hay.data

/-- The greedy match of `\d+\.?\d*` anchored at the head of `l` (the
head is known to be a digit at call sites). -/
def takeNumberAt (l : List Char) : List Char :=
  let ds := l.takeWhile Char.isDigit
  match l.drop ds.length with
  | '.' :: r => ds ++ '.' :: r.takeWhile Char.isDigit
  | _ => ds

/-- `message.match(/(\d+\.?\d*)/)`: the first (leftmost, then greedy)
match of an unsigned decimal number. -/
def firstNumberMatch : List Char → Option (List Char)
  | [] => none
  | c :: t => if c.isDigit then some (takeNumberAt (c :: t)) else firstNumberMatch t

/-- Attempt to match `/[+-]?\d+\.?\d*%/` anchored at the head of `l`,
returning the captured group (the number, sign included, `%` excluded).
For this pattern the greedy match needs no backtracking: giving any
quantifier back always leaves a digit or a dot where `%` is required. -/
def matchPctAt (l : List Char) : Option (List Char) :=
  let sign : List Char := match l with
    | '+' :: _ => ['+']
    | '-' :: _ => ['-']
    | _ => []
  let rest := l.drop sign.length
  if (rest.takeWhile Char.isDigit).isEmpty then none
  else
    let num := takeNumberAt rest
    match rest.drop num.length with
    | '%' :: _ => some (sign ++ num)
    | _ => none

/-- `message.match(/([+-]?\d+\.?\d*)%/)`: first position (scanning left
to right) where the signed-percentage pattern matches. -/
def firstPctMatch : List Char → Option (List Char)
  | [] => none
  | c :: t =>
    match matchPctAt (c :: t) with
    | some m => some m
    | none => firstPctMatch t

/-- `parseAlertMessage(message)`: classifies the message by keywords —
`突破`/`跌破` (threshold break, `突破` checked first) with the first
number of the message, else `涨`/`跌` (percentage move) with the first
signed percentage, else the generic label. -/
def parseAlertMessage (message : String) : String :=
  if jsIncludes message "突破" || jsIncludes message "跌破" then
    match firstNumberMatch message.data with
    | some n => "价格 " ++ (if jsIncludes message "突破" then "≥" else "≤") ++ " $" ++ String.mk n
    | none => "价格预警"
  else if jsIncludes message "涨" || jsIncludes message "跌" then
    match firstPctMatch message.data with
    | some n => "涨跌 " ++ String.mk n ++ "%"
    | none => "涨跌预警"
  else "预警触发"

/-- C5 counterexample.  A message containing both `突破` and `跌破`
(and a number) is rendered with `≥`: the `跌破` half of the claim fails
on it, since the result contains no `≤` and not the `跌破` number. -/
theorem parseAlertMessage_both_keywords :
    jsIncludes "ETH突破3500后跌破2800" "跌破" = true ∧
    parseAlertMessage "ETH突破3500后跌破2800" = "价格 " ++ "≥" ++ " $" ++ String.mk "3500".data ∧
    jsIncludes (parseAlertMessage "ETH突破3500后跌破2800") "≤" = false :=
  ⟨by decide, by decide, by decide⟩

/-- C5 (amended).  A message containing `突破` and a number is rendered
as `价格 ≥ $<first number>`; one containing `跌破` but not `突破` and a
number as `价格 ≤ $<first number>`; and the task card shows
`目标价格: ≥ $X` for a truthy `threshold_high` and `目标价格: ≤ $X` for
a truthy `threshold_low` when `threshold_high` is not truthy. -/
theorem alert_direction_rendering :
    (∀ (m : String) (n : List Char), jsIncludes m "突破" = true →
        firstNumberMatch m.data = some n →
        parseAlertMessage m = "价格 " ++ "≥" ++ " $" ++ String.mk n) ∧
    (∀ (m : String) (n : List Char), jsIncludes m "跌破" = true →
        jsIncludes m "突破" = false →
        firstNumberMatch m.data = some n →
        parseAlertMessage m = "价格 " ++ "≤" ++ " $" ++ String.mk n) ∧
    (∀ c : RuleConfig, truthyNum c.threshold_high = true →
        createTaskCardRuleDetail "PRICE_THRESHOLD" (.parsed c) =
          "目标价格: ≥ $" ++ jsNumToString (c.threshold_high.getD 0)) ∧
    (∀ c : RuleConfig, truthyNum c.threshold_high = false →
        truthyNum c.threshold_low = true →
        createTaskCardRuleDetail "PRICE_THRESHOLD" (.parsed c) =
          "目标价格: ≤ $" ++ jsNumToString (c.threshold_low.getD 0)) := by
  refine ⟨?_, ?_, ?_, ?_⟩
  · intro m n hy hn
    simp [parseAlertMessage, hy, hn]
  · intro m n hd hy hn
    simp [parseAlertMessage, hy, hd, hn]
  · intro c hc
    simp [createTaskCardRuleDetail, hc]
  · intro c hc hl
    simp [createTaskCardRuleDetail, hc, hl]

theorem alert_direction_rendering_witness :
    (jsIncludes "BTC突破50000" "突破" = true ∧
      parseAlertMessage "BTC突破50000" = "价格 " ++ "≥" ++ " $" ++ String.mk "50000".data) ∧
    (jsIncludes "ETH跌破2800" "跌破" = true ∧ jsIncludes "ETH跌破2800" "突破" = false ∧
      parseAlertMessage "ETH跌破2800" = "价格 " ++ "≤" ++ " $" ++ String.mk "2800".data) ∧
    (truthyNum (some (50000 : ℚ)) = true ∧
      createTaskCardRuleDetail "PRICE_THRESHOLD" (.parsed { threshold_high := some 50000 }) =
        "目标价格: ≥ $" ++ jsNumToString ((some (50000 : ℚ)).getD 0)) ∧
    (truthyNum (some (2800 : ℚ)) = true ∧
      createTaskCardRuleDetail "PRICE_THRESHOLD" (.parsed { threshold_low := some 2800 }) =
        "目标价格: ≤ $" ++ jsNumToString ((some (2800 : ℚ)).getD 0)) :=
  ⟨⟨by decide, alert_direction_rendering.1 _ _ (by decide) (by decide)⟩,
   ⟨by decide, by decide, alert_direction_rendering.2.1 _ _ (by decide) (by decide) (by decide)⟩,
   ⟨by decide, alert_direction_rendering.2.2.1 _ (by decide)⟩,
   ⟨by decide, alert_direction_rendering.2.2.2 _ rfl (by decide)⟩⟩

/-! ## The dashboard alert table (`loadAlerts`, `createAlertRow`) -/

/-- An alert record as returned by `/api/alerts`. -/
structure AlertRecord where
  task_id : Option Int
  symbol : String
  message : String
  trigger_price : ℚ
  triggered_at : Int
  sent_success : Bool
deriving DecidableEq, Repr

/-- JavaScript truthiness of the nullable numeric `task_id`: `null` and
`0` are falsy, every other id is truthy. -/
def truthyTaskId : Option Int → Bool
  | none => false
  | some n => n != 0

/-- The per-row view object `loadAlerts` builds from a record before
handing it to `createAlertRow`. -/
structure AlertView where
  time : Int
  symbol : String
  typeLabel : String
  condition : String
  price : ℚ
  status : String
deriving DecidableEq, Repr

/-- The view `loadAlerts` constructs for each alert record. -/
def loadAlertsView (a : AlertRecord) : AlertView :=
  { time := a.triggered_at
    symbol := a.symbol
    typeLabel := if truthyTaskId a.task_id then "监控预警" else "系统预警"
    condition := parseAlertMessage a.message
    price := a.trigger_price
    status := if a.sent_success then "success" else "error" }

/-- The cells of the `<tr>` built by `createAlertRow`.  The time and
price cells hold the raw values; their locale rendering
(`utils.formatTime`, `utils.formatPrice`) is pure display formatting and
is not modelled. -/
structure AlertRow where
  timeValue : Int
  symbolText : String
  typeText : String
  conditionText : String
  priceValue : ℚ
  statusBadgeClass : String
  statusBadgeText : String

/-- `createAlertRow(alert)`: each cell of the row; the status badge's
class is `status-badge <status>` and its text is the constant `已发送`. -/
def createAlertRow (a : AlertView) : AlertRow :=
  { timeValue := a.time
    symbolText := a.symbol
    typeText := a.typeLabel
    conditionText := a.condition
    priceValue := a.price
    statusBadgeClass := "status-badge " ++ a.status
    statusBadgeText := "已发送" }

/-- C3 counterexample.  An alert persisted with `sent_success = false`
is rendered with badge class `status-badge error` but with the visible
badge text `已发送` ("sent") — the same label a successful send gets. -/
theorem alertRow_failed_send_shows_sent_label :
    (createAlertRow (loadAlertsView
        { task_id := some 3, symbol := "BTC", message := "m", trigger_price := 50125,
          triggered_at := 0, sent_success := false })).statusBadgeClass = "status-badge error" ∧
    (createAlertRow (loadAlertsView
        { task_id := some 3, symbol := "BTC", message := "m", trigger_price := 50125,
          triggered_at := 0, sent_success := false })).statusBadgeText = "已发送" :=
  ⟨rfl, rfl⟩

/-- C3 (amended).  The row's status CSS class reflects `sent_success` —
`status-badge success` iff true, `status-badge error` iff false — but
the badge's visible text is the constant `已发送` for both outcomes, so
a failed send is distinguished only by styling, not by the label. -/
theorem alertRow_status_class_reflects_sent (a : AlertRecord) :
    (createAlertRow (loadAlertsView a)).statusBadgeClass =
      "status-badge " ++ (if a.sent_success then "success" else "error") ∧
    (createAlertRow (loadAlertsView a)).statusBadgeText = "已发送" ∧
    ((createAlertRow (loadAlertsView a)).statusBadgeClass = "status-badge success" ↔
      a.sent_success = true) := by
  refine ⟨rfl, rfl, ?_⟩
  cases h : a.sent_success <;> simp [createAlertRow, loadAlertsView, h]

/-- C6 counterexample.  A record with the non-null `task_id = 0` is
displayed as a system-level alert (`系统预警`), because the rendering
tests JavaScript truthiness of `task_id`, not null-ness. -/
theorem alertView_task_id_zero_shown_system :
    ({ task_id := some 0, symbol := "X", message := "m", trigger_price := 1,
        triggered_at := 0, sent_success := true } : AlertRecord).task_id ≠ none ∧
    (loadAlertsView
        { task_id := some 0, symbol := "X", message := "m", trigger_price := 1,
          triggered_at := 0, sent_success := true }).typeLabel = "系统预警" :=
  ⟨by decide, rfl⟩

/-- C6 (amended).  The alert's type label is `监控预警` (task-linked)
iff `task_id` is truthy — non-null and nonzero — and `系统预警`
(system-level) iff `task_id` is `null` or `0`. -/
theorem alertView_type_by_truthiness (a : AlertRecord) :
    ((loadAlertsView a).typeLabel = "监控预警" ↔ truthyTaskId a.task_id = true) ∧
    ((loadAlertsView a).typeLabel = "系统预警" ↔ truthyTaskId a.task_id = false) := by
  cases h : truthyTaskId a.task_id <;> simp [loadAlertsView, h]

/-! ## The in-memory alert list (`addNewAlert`) -/

/-- `addNewAlert(alert)` on `state.alerts`: `unshift` the new alert,
then `pop` the last entry when the length exceeds 10. -/
def addNewAlert {α : Type} (alert : α) (alerts : List α) : List α :=
  let next := alert :: alerts
  if next.length > 10 then next.dropLast else next

/-- C8.  From any state within the 10-entry bound, `addNewAlert` puts
the new alert first and keeps the list within the bound (dropping the
oldest entry when the insertion would exceed 10). -/
theorem addNewAlert_keeps_bound {α : Type} (a : α) (l : List α) (h : l.length ≤ 10) :
    (addNewAlert a l).head? = some a ∧ (addNewAlert a l).length ≤ 10 := by
  simp only [addNewAlert]
  by_cases hlen : (a :: l).length > 10
  · simp only [if_pos hlen]
    cases l with
    | nil => simp at hlen
    | cons b t =>
      refine ⟨by rw [List.dropLast_cons₂]; rfl, ?_⟩
      simp only [List.length_dropLast, List.length_cons] at *
      omega
  · simp only [if_neg hlen]
    exact ⟨rfl, by simp only [List.length_cons] at *; omega⟩

theorem addNewAlert_keeps_bound_witness :
    ([2, 3, 4, 5, 6, 7, 8, 9, 10, 11] : List ℕ).length ≤ 10 ∧
      ((addNewAlert 1 ([2, 3, 4, 5, 6, 7, 8, 9, 10, 11] : List ℕ)).head? = some 1 ∧
        (addNewAlert 1 ([2, 3, 4, 5, 6, 7, 8, 9, 10, 11] : List ℕ)).length ≤ 10) :=
  ⟨by decide, addNewAlert_keeps_bound 1 _ (by decide)⟩

/-! ## HTML escaping (`DOMUtils.escapeHtml`) -/

/-- The single-quote character (written by code point to keep string
literals quote-free). -/
def apos : Char := Char.ofNat 39

/-- `String.prototype.replace(/c/g, r)` for a single-character pattern
`c` whose replacement `r` is literal text: every occurrence of `c` is
replaced by `r`. -/
def replaceCharL (c : Char) (r : List Char) : List Char → List Char
  | [] => []
  | ch :: t => (if ch = c then r else [ch]) ++ replaceCharL c r t

/-- String-level wrapper for the global single-character replacement. -/
def jsReplaceAllChar (c : Char) (r s : String) : String :=
  String.mk (replaceCharL c r.data s.data)

/-- An argument to `DOMUtils.escapeHtml`: either an actual string, or a
non-string value carrying the text `String(value)` coerces it to. -/
inductive JSValue where
  | str (s : String)
  | nonStr (coerced : String)

/-- `DOMUtils.escapeHtml(unsafe)`: a non-string is returned as
`String(unsafe)`; a string goes through the five sequential global
replacements, ampersand first, then `<`, `>`, `"`, `'`. -/
def escapeHtml : JSValue → String
  | .nonStr coerced => coerced
  | .str s =>
    jsReplaceAllChar apos "&#039;"
      (jsReplaceAllChar '"' "&quot;"
        (jsReplaceAllChar '>' "&gt;"
          (jsReplaceAllChar '<' "&lt;"
            (jsReplaceAllChar '&' "&amp;" s))))

/-- The per-character effect of the five replacements: each of the five
special characters becomes its HTML entity, everything else stays. -/
def escapeChar (ch : Char) : List Char :=
  if ch = '&' then "&amp;".data
  else if ch = '<' then "&lt;".data
  else if ch = '>' then "&gt;".data
  else if ch = '"' then "&quot;".data
  else if ch = apos then "&#039;".data
  else [ch]

/-- A character the escaped output must never contain raw. -/
def badRaw (c : Char) : Bool := c == '<' || c == '>' || c == '"' || c == apos

/-- Every `'&'` in the list heads one of the five emitted entities
(`&amp;` `&lt;` `&gt;` `&quot;` `&#039;`). -/
def ampOk : List Char → Bool
  | [] => true
  | c :: t =>
    if c = '&' then
      if t.take 4 = "amp;".data then ampOk (t.drop 4)
      else if t.take 3 = "lt;".data then ampOk (t.drop 3)
      else if t.take 3 = "gt;".data then ampOk (t.drop 3)
      else if t.take 5 = "quot;".data then ampOk (t.drop 5)
      else if t.take 5 = "#039;".data then ampOk (t.drop 5)
      else false
    else ampOk t
termination_by l => l.length
decreasing_by all_goals (simp [List.length_drop]; try omega)

theorem replaceCharL_append (c : Char) (r a b : List Char) :
    replaceCharL c r (a ++ b) = replaceCharL c r a ++ replaceCharL c r b := by
  induction a with
  | nil => rfl
  | cons ch t ih => simp [replaceCharL, ih, List.append_assoc]

theorem escapeCascade (ch : Char) :
    replaceCharL apos "&#039;".data (replaceCharL '"' "&quot;".data
      (replaceCharL '>' "&gt;".data (replaceCharL '<' "&lt;".data
        (replaceCharL '&' "&amp;".data [ch])))) = escapeChar ch := by
  by_cases h1 : ch = '&'
  · subst h1; decide
  by_cases h2 : ch = '<'
  · subst h2; decide
  by_cases h3 : ch = '>'
  · subst h3; decide
  by_cases h4 : ch = '"'
  · subst h4; decide
  by_cases h5 : ch = apos
  · subst h5; decide
  simp [replaceCharL, escapeChar, h1, h2, h3, h4, h5]

theorem replaceCascade (l : List Char) :
    replaceCharL apos "&#039;".data (replaceCharL '"' "&quot;".data
      (replaceCharL '>' "&gt;".data (replaceCharL '<' "&lt;".data
        (replaceCharL '&' "&amp;".data l)))) = l.flatMap escapeChar := by
  induction l with
  | nil => rfl
  | cons ch t ih =>
    rw [List.flatMap_cons, ← ih, ← escapeCascade ch]
    have h0 : ch :: t = [ch] ++ t := rfl
    rw [h0]
    simp only [replaceCharL_append]

theorem escapeHtml_str_data (s : String) :
    (escapeHtml (JSValue.str s)).data = s.data.flatMap escapeChar :=
  replaceCascade s.data

theorem escapeChar_no_bad (ch : Char) : ∀ c ∈ escapeChar ch, badRaw c = false := by
  by_cases h1 : ch = '&'
  · subst h1; decide
  by_cases h2 : ch = '<'
  · subst h2; decide
  by_cases h3 : ch = '>'
  · subst h3; decide
  by_cases h4 : ch = '"'
  · subst h4; decide
  by_cases h5 : ch = apos
  · subst h5; decide
  intro c hc
  simp [escapeChar, h1, h2, h3, h4, h5] at hc
  subst hc
  simp [badRaw, h2, h3, h4, h5]

theorem ampOk_escapeChar_append (ch : Char) (rest : List Char) :
    ampOk (escapeChar ch ++ rest) = ampOk rest := by
  by_cases h1 : ch = '&'
  · subst h1; simp [escapeChar, ampOk]
  by_cases h2 : ch = '<'
  · subst h2; simp [escapeChar, ampOk]
  by_cases h3 : ch = '>'
  · subst h3; simp [escapeChar, ampOk]
  by_cases h4 : ch = '"'
  · subst h4; simp [escapeChar, ampOk]
  by_cases h5 : ch = apos
  · subst h5; simp [escapeChar, h1, h2, h3, h4, ampOk]
  simp [escapeChar, h1, h2, h3, h4, h5, ampOk]

theorem ampOk_flatMap (l : List Char) : ampOk (l.flatMap escapeChar) = true := by
  induction l with
  | nil => simp [ampOk]
  | cons ch t ih => rw [List.flatMap_cons, ampOk_escapeChar_append, ih]

/-- C9.  `DOMUtils.escapeHtml` is total — a non-string argument is
returned as its `String(...)` coercion — and on every string it replaces
each occurrence of `&`, `<`, `>`, `"`, `'` by its HTML entity: the
output is exactly the per-character entity expansion, contains no raw
`<`, `>`, `"` or `'`, and every `&` in it heads an emitted entity. -/
theorem escapeHtml_escapes_everything :
    (∀ c, escapeHtml (JSValue.nonStr c) = c) ∧
    (∀ s : String,
      (escapeHtml (JSValue.str s)).data = s.data.flatMap escapeChar ∧
      ((escapeHtml (JSValue.str s)).data.all fun c => !badRaw c) = true ∧
      ampOk (escapeHtml (JSValue.str s)).data = true) := by
  refine ⟨fun _ => rfl, fun s => ⟨escapeHtml_str_data s, ?_, ?_⟩⟩
  · rw [escapeHtml_str_data, List.all_eq_true]
    intro c hc
    rcases List.mem_flatMap.mp hc with ⟨a, _, hca⟩
    simp [escapeChar_no_bad a c hca]
  · rw [escapeHtml_str_data]
    exact ampOk_flatMap s.data

/-! ## API wrappers (`api.get`, `api.post`, `api.delete`) -/

/-- A JSON value, as `response.json()` produces it. -/
inductive Json where
  | null
  | bool (b : Bool)
  | num (q : ℚ)
  | str (s : String)
  | arr (elems : List Json)
  | obj (fields : List (String × Json))

/-- What a `fetch` call can come back with: a rejected promise (network
error), or a response with an HTTP status and a body that either parses
as JSON or does not (`response.json()` throws). -/
inductive FetchOutcome where
  | netError (message : String)
  | resp (status : Nat) (body : Option Json)

/-- `Response.ok`: status in the inclusive-exclusive range 200–299. -/
def responseOk (status : Nat) : Bool := 200 ≤ status && status < 300

/-- What an `api` wrapper returns, plus whether it navigated to the
login page. -/
structure ApiResult where
  value : Option Json
  redirectedToLogin : Bool

/-- The `try` block of `api.get`: on `!response.ok` it returns null
after redirecting when the status is 401 and throws otherwise; on an OK
response it returns the parsed body, `response.json()` throwing on an
unparsable one. -/
def apiGetTry : FetchOutcome → Except String ApiResult
  | .netError m => .error m
  | .resp status body =>
    if responseOk status then
      match body with
      | some j => .ok { value := some j, redirectedToLogin := false }
      | none => .error "invalid json"
    else if status = 401 then .ok { value := none, redirectedToLogin := true }
    else .error ("HTTP " ++ natToString status)

/-- `api.get`: the `try` block with its `catch` clause, which logs and
returns null. -/
def apiGet (o : FetchOutcome) : ApiResult :=
  match apiGetTry o with
  | .ok r => r
  | .error _ => { value := none, redirectedToLogin := false }

/-- The `try` block of `api.post` (the request body does not affect the
response handling, which is identical to `api.get`). -/
def apiPostTry (_data : Json) : FetchOutcome → Except String ApiResult
  | .netError m => .error m
  | .resp status body =>
    if responseOk status then
      match body with
      | some j => .ok { value := some j, redirectedToLogin := false }
      | none => .error "invalid json"
    else if status = 401 then .ok { value := none, redirectedToLogin := true }
    else .error ("HTTP " ++ natToString status)

/-- `api.post`: `try` block plus `catch` returning null. -/
def apiPost (data : Json) (o : FetchOutcome) : ApiResult :=
  match apiPostTry data o with
  | .ok r => r
  | .error _ => { value := none, redirectedToLogin := false }

/-- The `try` block of `api.delete` (identical response handling). -/
def apiDeleteTry : FetchOutcome → Except String ApiResult
  | .netError m => .error m
  | .resp status body =>
    if responseOk status then
      match body with
      | some j => .ok { value := some j, redirectedToLogin := false }
      | none => .error "invalid json"
    else if status = 401 then .ok { value := none, redirectedToLogin := true }
    else .error ("HTTP " ++ natToString status)

/-- `api.delete`: `try` block plus `catch` returning null. -/
def apiDelete (o : FetchOutcome) : ApiResult :=
  match apiDeleteTry o with
  | .ok r => r
  | .error _ => { value := none, redirectedToLogin := false }

/-- C10.  The API wrappers never let an exception escape: whatever the
`try` block throws is caught and turned into a null return; a network
error yields null; an OK response yields its parsed JSON body; a non-OK
response yields null, redirecting to the login page exactly when the
status is 401.  `api.post` and `api.delete` handle every outcome
identically to `api.get`. -/
theorem api_wrappers_never_throw :
    (∀ o e, apiGetTry o = .error e →
        apiGet o = { value := none, redirectedToLogin := false }) ∧
    (∀ m, apiGet (.netError m) = { value := none, redirectedToLogin := false }) ∧
    (∀ st j, responseOk st = true →
        apiGet (.resp st (some j)) = { value := some j, redirectedToLogin := false }) ∧
    (∀ st b, responseOk st = false →
        (apiGet (.resp st b)).value = none ∧
        ((apiGet (.resp st b)).redirectedToLogin = true ↔ st = 401)) ∧
    (∀ d o, apiPost d o = apiGet o) ∧
    (∀ o, apiDelete o = apiGet o) := by
  refine ⟨?_, ?_, ?_, ?_, ?_, ?_⟩
  · intro o e he
    simp [apiGet, he]
  · intro m
    rfl
  · intro st j hok
    simp [apiGet, apiGetTry, hok]
  · intro st b hok
    by_cases h401 : st = 401
    · subst h401
      cases b <;> simp [apiGet, apiGetTry, hok]
    · constructor
      · cases b <;> simp [apiGet, apiGetTry, hok, h401]
      · simp [apiGet, apiGetTry, hok, h401]
  · intro d o
    rfl
  · intro o
    rfl

theorem api_wrappers_never_throw_witness :
    (apiGetTry (.netError "boom") = .error "boom" ∧
      apiGet (.netError "boom") = { value := none, redirectedToLogin := false }) ∧
    (responseOk 200 = true ∧
      apiGet (.resp 200 (some .null)) = { value := some .null, redirectedToLogin := false }) ∧
    (responseOk 401 = false ∧ (apiGet (.resp 401 none)).value = none ∧
      ((apiGet (.resp 401 none)).redirectedToLogin = true ↔ (401 : ℕ) = 401)) ∧
    apiPost .null (.resp 404 none) = apiGet (.resp 404 none) ∧
    apiDelete (.resp 500 none) = apiGet (.resp 500 none) :=
  ⟨⟨rfl, api_wrappers_never_throw.1 _ _ rfl⟩,
   ⟨by decide, api_wrappers_never_throw.2.2.1 200 .null (by decide)⟩,
   ⟨by decide,
    (api_wrappers_never_throw.2.2.2.1 401 none (by decide)).1,
    (api_wrappers_never_throw.2.2.2.1 401 none (by decide)).2⟩,
   api_wrappers_never_throw.2.2.2.2.1 .null _,
   api_wrappers_never_throw.2.2.2.2.2 _⟩
